import Mathlib

/-!
Shallow embedding of the `ibmcloudvercel` source-archival and upload
pipeline (files `src/ibm_cloud_vercel/sdk/auth.py`,
`src/ibm_cloud_vercel/sdk/cos.py`, `deploy_ibm.py`), together with
theorems settling the specification claims about it.

Conventions of the embedding:
* Python exceptions become an explicit `PyExn` value in an `Except`;
  the constructor records the Python exception class, so that the
  "error kind observable by a caller without reading messages" is the
  constructor tag.
* `os.getenv` reads become fields of an explicit `Env` record.
* The two HTTP interactions (IAM token exchange, COS upload) are
  parameterised by oracle values describing what the network returns.
* The filesystem is an explicit `DiskState`: source trees keyed by
  their resolved directory path, and ordinary files (archives) keyed
  by file path. `Path.resolve` is modelled as the identity on the key.
* Machine strings are Lean `String`s (Python 3 `str`); the code runs
  on POSIX, so `os.path.normcase` inside `fnmatch` is the identity.
-/

namespace IbmCloudVercel

/-- The Python exception classes raised by the embedded code, with their
free-form message. -/
inductive PyExn where
  | valueError (msg : String)
  | runtimeError (msg : String)
  | fileNotFoundError (msg : String)
  | attributeError (msg : String)
  deriving DecidableEq, Repr

/-- Decidable equality of `Except` results, used to evaluate the
embedded operations on concrete inputs. -/
instance {ε α : Type} [DecidableEq ε] [DecidableEq α] :
    DecidableEq (Except ε α)
  | .error a, .error b =>
      if h : a = b then .isTrue (by rw [h])
      else .isFalse (fun hh => by cases hh; exact h rfl)
  | .error _, .ok _ => .isFalse (fun hh => by cases hh)
  | .ok _, .error _ => .isFalse (fun hh => by cases hh)
  | .ok a, .ok b =>
      if h : a = b then .isTrue (by rw [h])
      else .isFalse (fun hh => by cases hh; exact h rfl)

/-- The exception class alone - what a caller observes with
`except SomeClass:` handlers, without inspecting the message. -/
inductive PyExnKind where
  | valueError
  | runtimeError
  | fileNotFoundError
  | attributeError
  deriving DecidableEq, Repr

/-- Forget the message, keep the exception class. -/
def pyExnKind : PyExn → PyExnKind
  | .valueError _ => .valueError
  | .runtimeError _ => .runtimeError
  | .fileNotFoundError _ => .fileNotFoundError
  | .attributeError _ => .attributeError

/-- The environment variables the two modules read (`os.getenv` returns
`None` when unset, i.e. `none`). -/
structure Env where
  vercel_oidc_token : Option String
  ibm_cloud_api_key : Option String
  ibm_cos_service_instance_id : Option String
  deriving DecidableEq, Repr

/-- Python truthiness of an optional string: `None` and `""` are falsy. -/
def strTruthy : Option String → Bool
  | none => false
  | some s => !s.isEmpty

/-- The credential object returned by `auth.py`, as a closed sum:
`create_iam_authenticator` returns an `IAMAuthenticator` (which carries a
`token_manager` whose `apikey` attribute is the key), and
`create_iam_authenticator_oidc` returns a `BearerTokenAuthenticator`
(which carries only `bearer_token`). -/
inductive Authenticator where
  | iam (apikey : String)
  | bearer (bearer_token : String)
  deriving DecidableEq, Repr

/-- Attribute access `authenticator.token_manager.apikey` (cos.py line 68).
Modelled from the third-party `ibm_cloud_sdk_core` classes:
`IAMAuthenticator.__init__` stores `self.token_manager = IAMTokenManager(apikey=...)`,
so the access yields the API key; `BearerTokenAuthenticator.__init__` stores
only `self.bearer_token`, so the access raises `AttributeError`. -/
def token_manager_apikey : Authenticator → Except PyExn String
  | .iam k => .ok k
  | .bearer _ =>
      .error (.attributeError
        "BearerTokenAuthenticator object has no attribute token_manager")

/-- `auth.create_iam_authenticator` (auth.py lines 14-46): fall back to
`IBM_CLOUD_API_KEY`, raise `ValueError` when the key is missing or empty,
else wrap the key in an `IAMAuthenticator`. -/
def create_iam_authenticator (api_key : Option String) (env : Env) :
    Except PyExn Authenticator :=
  let key := match api_key with
    | none => env.ibm_cloud_api_key
    | some k => some k
  match key with
  | some k =>
      if k.isEmpty then
        .error (.valueError "IBM Cloud API key is required.")
      else
        .ok (.iam k)
  | none => .error (.valueError "IBM Cloud API key is required.")

/-- What the IAM token-exchange endpoint returns for the single
`requests.post` call in `create_iam_authenticator_oidc`:
either the transport raises a `requests.exceptions.RequestException`,
or a final HTTP response arrives whose JSON body has an optional
`access_token` and `expires_in` field (`none` = field absent). -/
inductive ExchangeResponse where
  | transportError (msg : String)
  | httpResponse (status : Nat) (access_token : Option String)
      (expires_in : Option String)
  deriving DecidableEq, Repr

/-- `requests.Response.raise_for_status` raises `HTTPError` (a subclass of
`RequestException`) exactly for status codes 400-599. -/
def raisesForStatus (status : Nat) : Bool :=
  (400 ≤ status && status < 600)

/-- `auth.create_iam_authenticator_oidc` (auth.py lines 95-172): validate
the two inputs, make one token-exchange POST, `raise_for_status`, read
`access_token` from the JSON, raise `RuntimeError` when it is absent or
empty, else return a `BearerTokenAuthenticator`. `RequestException`s
(transport errors and HTTP 4xx/5xx) are caught and re-raised as
`RuntimeError`. -/
def create_iam_authenticator_oidc (oidc_token trusted_profile_id : String)
    (resp : ExchangeResponse) : Except PyExn Authenticator :=
  if oidc_token.isEmpty then
    .error (.valueError "OIDC token is required for OIDC authentication")
  else if trusted_profile_id.isEmpty then
    .error (.valueError "IBM Cloud Trusted Profile ID is required for OIDC authentication.")
  else
    match resp with
    | .transportError m =>
        .error (.runtimeError ("Failed to exchange OIDC token with IBM IAM: " ++ m))
    | .httpResponse status access_token _ =>
        if raisesForStatus status then
          .error (.runtimeError
            ("Failed to exchange OIDC token with IBM IAM: HTTP status " ++
              toString status))
        else
          match access_token with
          | none => .error (.runtimeError "Failed to obtain access token from IBM IAM")
          | some t =>
              if t.isEmpty then
                .error (.runtimeError "Failed to obtain access token from IBM IAM")
              else
                .ok (.bearer t)

/-- auth.py lines 208-209: fall back to `VERCEL_OIDC_TOKEN` when no
explicit OIDC token is given. -/
def effectiveOidcToken (oidc_token : Option String) (env : Env) : Option String :=
  match oidc_token with
  | none => env.vercel_oidc_token
  | some t => some t

/-- auth.py lines 216-217: fall back to `IBM_CLOUD_API_KEY` when no
explicit key is given. -/
def effectiveApiKey (api_key : Option String) (env : Env) : Option String :=
  match api_key with
  | none => env.ibm_cloud_api_key
  | some k => some k

/-- `auth.get_authenticator` (auth.py lines 175-228), also returning how
many token-exchange HTTP calls were made. -/
def get_authenticator (trusted_profile_id api_key oidc_token : Option String)
    (env : Env) (resp : ExchangeResponse) :
    Except PyExn Authenticator × Nat :=
  let oidc := effectiveOidcToken oidc_token env
  if strTruthy oidc && strTruthy trusted_profile_id then
    match oidc, trusted_profile_id with
    | some t, some p => (create_iam_authenticator_oidc t p resp, 1)
    | _, _ => (.error (.valueError "unreachable"), 0)
  else
    let key := effectiveApiKey api_key env
    if strTruthy key then
      (create_iam_authenticator key env, 0)
    else
      (.error (.valueError
        "No valid authentication method available. Either set VERCEL_OIDC_TOKEN with a Trusted Profile ID, or set IBM_CLOUD_API_KEY environment variable."), 0)

/-- `cos.DEFAULT_EXCLUDE_PATTERNS` (cos.py lines 15-40). -/
def DEFAULT_EXCLUDE_PATTERNS : List String :=
  [".git", ".gitmodules", ".github", ".cache", ".mypy_cache", ".pytest_cache",
   ".venv", "venv", ".env", ".env.local", "node_modules", ".next", ".vercel",
   "__pycache__", "*.pyc", "*.pyo", "*.pyd", "*.log", "*.tmp", "*.swp",
   ".DS_Store", "dist", "build", "coverage"]

/-- Membership test against the body of a `[...]` character class, with
`a-b` ranges as in the regex `fnmatch.translate` produces. -/
def matchSet : List Char → Char → Bool
  | [], _ => false
  | a :: '-' :: b :: rest, c => (a ≤ c && c ≤ b) || matchSet rest c
  | a :: rest, c => (a = c) || matchSet rest c

/-- Split the characters following `[` at the matching `]`. -/
def breakAtRBracket : List Char → Option (List Char × List Char)
  | [] => none
  | ']' :: rest => some ([], rest)
  | c :: rest =>
      match breakAtRBracket rest with
      | none => none
      | some (pre, post) => some (c :: pre, post)

/-- Parse a `[...]` class as `fnmatch.translate` does: an initial `!`
negates, a `]` directly after that is a literal member, and if no closing
`]` exists the `[` is treated as a literal character (`none`). Returns
(negated, class body, remaining pattern). -/
def splitClass (l : List Char) : Option (Bool × List Char × List Char) :=
  match l with
  | '!' :: ']' :: rest =>
      match breakAtRBracket rest with
      | none => none
      | some (pre, post) => some (true, ']' :: pre, post)
  | '!' :: rest =>
      match breakAtRBracket rest with
      | none => none
      | some (pre, post) => some (true, pre, post)
  | ']' :: rest =>
      match breakAtRBracket rest with
      | none => none
      | some (pre, post) => some (false, ']' :: pre, post)
  | _ =>
      match breakAtRBracket l with
      | none => none
      | some (pre, post) => some (false, pre, post)

/-- Anchored glob matching over characters, the semantics of the regex
`fnmatch.translate` builds: `*` matches any sequence (`/` is not
special), `?` any single character, `[...]` a character class. The fuel
argument only forces structural recursion; each call consumes at least
one unit of pattern or subject, so `|pattern| + |subject| + 1` is always
enough. -/
def globMatchAux : Nat → List Char → List Char → Bool
  | 0, _, _ => false
  | _ + 1, [], s => s.isEmpty
  | f + 1, '*' :: ps, s =>
      globMatchAux f ps s ||
        (match s with
         | [] => false
         | _ :: s2 => globMatchAux f ('*' :: ps) s2)
  | f + 1, '?' :: ps, s =>
      (match s with
       | [] => false
       | _ :: s2 => globMatchAux f ps s2)
  | f + 1, '[' :: ps, s =>
      (match splitClass ps with
       | none =>
          (match s with
           | [] => false
           | c :: s2 => (c = '[') && globMatchAux f ps s2)
       | some (neg, body, rest) =>
          (match s with
           | [] => false
           | c :: s2 =>
              (if neg then !(matchSet body c) else matchSet body c) &&
                globMatchAux f rest s2))
  | f + 1, p :: ps, s =>
      (match s with
       | [] => false
       | c :: s2 => (p = c) && globMatchAux f ps s2)

/-- `fnmatch.fnmatch(name, pattern)` on POSIX (`os.path.normcase` is the
identity there, so matching is case-sensitive and anchored). -/
def fnmatchB (name pattern : String) : Bool :=
  globMatchAux (pattern.length + name.length + 1) pattern.toList name.toList

/-- `any(token in pattern for token in ("*", "?", "[", "]"))`
(cos.py line 115). -/
def hasGlobToken (pattern : String) : Bool :=
  pattern.toList.any (fun c => c = '*' || c = '?' || c = '[' || c = ']')

/-- A path relative to the source root, as its components
(`PurePath.parts`); always nonempty for archived entries. -/
abbrev RelPath := List String

/-- `relative_path.as_posix()`: components joined by `/`. -/
def relativeStr (parts : RelPath) : String := String.intercalate "/" parts

/-- `file_path.name`: the final component. -/
def fileName (parts : RelPath) : String := parts.getLastD ""

/-- The body of the `for pattern in exclude_patterns` loop of
`should_exclude` (cos.py lines 113-123) for one pattern: a pattern
without glob tokens excludes when it equals some component; one with
glob tokens excludes when it `fnmatch`es the file name or the posix
relative path. -/
def matchesPattern (parts : RelPath) (pattern : String) : Bool :=
  if hasGlobToken pattern then
    fnmatchB (fileName parts) pattern || fnmatchB (relativeStr parts) pattern
  else
    parts.contains pattern

/-- `should_exclude` (cos.py lines 107-125): return `True` on the first
matching pattern, `False` when the loop finishes. -/
def should_exclude (exclude_patterns : List String) (parts : RelPath) : Bool :=
  match exclude_patterns with
  | [] => false
  | p :: ps => if matchesPattern parts p then true else should_exclude ps parts

/-- A naive UTC instant as `datetime.utcnow()` yields it, at second
granularity. -/
structure DateTime where
  year : Nat
  month : Nat
  day : Nat
  hour : Nat
  minute : Nat
  second : Nat
  deriving DecidableEq, Repr

/-- Field ranges of a `datetime` value coming from `utcnow` (year is
four-digit for any realistic clock; `datetime.MAXYEAR` is 9999). -/
def DateTime.Valid (d : DateTime) : Prop :=
  1000 ≤ d.year ∧ d.year ≤ 9999 ∧ 1 ≤ d.month ∧ d.month ≤ 12 ∧
    1 ≤ d.day ∧ d.day ≤ 31 ∧ d.hour ≤ 23 ∧ d.minute ≤ 59 ∧ d.second ≤ 59

instance (d : DateTime) : Decidable d.Valid := by
  unfold DateTime.Valid; infer_instance

/-- The ASCII digit character for `n % 10`. -/
def digitChar (n : Nat) : Char := Char.ofNat (48 + n % 10)

/-- Two-digit zero-padded decimal, as `strftime` `%m %d %H %M %S` print
their in-range arguments. -/
def pad2 (n : Nat) : String := String.mk [digitChar (n / 10), digitChar n]

/-- Four-digit zero-padded decimal, as `strftime` `%Y` prints a
four-digit year. -/
def pad4 (n : Nat) : String :=
  String.mk [digitChar (n / 1000), digitChar (n / 100), digitChar (n / 10), digitChar n]

/-- `datetime.utcnow().strftime("%Y%m%d_%H%M%S")` (cos.py lines 101 and
214). -/
def utcTimestamp (d : DateTime) : String :=
  pad4 d.year ++ pad2 d.month ++ pad2 d.day ++ "_" ++
    pad2 d.hour ++ pad2 d.minute ++ pad2 d.second

/-- One filesystem object under the source root as `rglob("*")` visits
it: its relative path, whether `is_file()` holds (regular files only),
and its content bytes. -/
structure FSEntry where
  path : RelPath
  isFile : Bool
  content : String
  deriving DecidableEq, Repr

/-- The (relative path, content) entries written into a zip archive. -/
abbrev Archive := List (RelPath × String)

/-- The host filesystem: source directories keyed by their resolved
path, with the entries a recursive walk yields, and ordinary files
(the written archives) keyed by file path. -/
structure DiskState where
  trees : List (String × List FSEntry)
  files : List (String × Archive)
  deriving DecidableEq, Repr

/-- The zip-building loop of `create_source_archive` (cos.py lines
128-132): keep every entry that `is_file()` and is not excluded, store
it under its relative path. -/
def archiveEntries (patterns : List String) (entries : List FSEntry) : Archive :=
  (entries.filter (fun e => e.isFile && !should_exclude patterns e.path)).map
    (fun e => (e.path, e.content))

/-- Split a character list at every `/`. -/
def splitOnSlash : List Char → List (List Char)
  | [] => [[]]
  | '/' :: rest => [] :: splitOnSlash rest
  | c :: rest =>
      match splitOnSlash rest with
      | [] => [[c]]
      | s :: ss => (c :: s) :: ss

/-- `PurePosixPath(p).name`: last component after dropping empty and `.`
segments. -/
def baseName (p : String) : String :=
  (((splitOnSlash p.toList).map String.mk).filter
    (fun s => !s.isEmpty && s ≠ ".")).getLastD ""

/-- The uploader object built by `COSUploader.__init__` (cos.py lines
46-72) when the attribute accesses succeed: it keeps the bucket, the
endpoint, and the client constructed from the credential and service
instance. -/
structure COSUploader where
  bucket_name : String
  endpoint : String
  client_api_key : String
  client_service_instance_id : String
  deriving DecidableEq, Repr

/-- `COSUploader.__init__` (cos.py lines 46-72): evaluates
`authenticator.token_manager.apikey` to build the client, so
construction raises when that attribute chain does. -/
def COSUploader.init (authenticator : Authenticator)
    (service_instance_id endpoint bucket_name : String) :
    Except PyExn COSUploader :=
  match token_manager_apikey authenticator with
  | .error e => .error e
  | .ok k => .ok ⟨bucket_name, endpoint, k, service_instance_id⟩

/-- `cos.create_cos_uploader` (cos.py lines 233-267): default the
endpoint from the region, read the service instance id from the
environment with a placeholder default, then construct the uploader. -/
def create_cos_uploader (authenticator : Authenticator) (region : String)
    (bucket_name : String) (endpoint : Option String) (env : Env) :
    Except PyExn COSUploader :=
  let ep := endpoint.getD ("s3." ++ region ++ ".cloud-object-storage.appdomain.cloud")
  let sid := env.ibm_cos_service_instance_id.getD
    "crn:v1:bluemix:public:cloud-object-storage:global:a/:::"
  COSUploader.init authenticator sid ep bucket_name

/-- `COSUploader.create_source_archive` (cos.py lines 74-137): resolve
the source directory (modelled as lookup by resolved path), raise
`FileNotFoundError` when it does not exist - before anything is written -
else default the output path to `/tmp/source_{timestamp}.zip` and write
the archive of the non-excluded regular files. Returns the resulting
disk state alongside the outcome. -/
def COSUploader.create_source_archive (_u : COSUploader) (st : DiskState)
    (source_dir : String) (output_path : Option String)
    (exclude_patterns : Option (List String)) (now : DateTime) :
    DiskState × Except PyExn String :=
  let patterns := exclude_patterns.getD DEFAULT_EXCLUDE_PATTERNS
  match st.trees.lookup source_dir with
  | none =>
      (st, .error (.fileNotFoundError ("Source directory not found: " ++ source_dir)))
  | some entries =>
      let out := output_path.getD ("/tmp/source_" ++ utcTimestamp now ++ ".zip")
      ({ st with files := (out, archiveEntries patterns entries) :: st.files },
        .ok out)

/-- `COSUploader.upload_file` (cos.py lines 139-181): raise
`FileNotFoundError` when the local file does not exist, default the
object name to the file name, then perform one put; a transport failure
(`net = some msg`) is wrapped in `RuntimeError`, success returns
`cos://bucket/object`. -/
def COSUploader.upload_file (u : COSUploader) (st : DiskState)
    (file_path : String) (object_name : Option String) (net : Option String) :
    Except PyExn String :=
  match st.files.lookup file_path with
  | none => .error (.fileNotFoundError ("File not found: " ++ file_path))
  | some _ =>
      let obj := object_name.getD (baseName file_path)
      match net with
      | some m => .error (.runtimeError ("Failed to upload file to COS: " ++ m))
      | none => .ok ("cos://" ++ u.bucket_name ++ "/" ++ obj)

/-- `COSUploader.upload_source_code` (cos.py lines 196-230): compute the
object name `deployments/{id}/{timestamp}_source.zip` from the current
UTC time, create the archive (its own `utcnow` call is `nowArchive`),
upload it, and return `(cos uri, zip path)`. The resulting disk state is
returned alongside so that what an aborting exception leaves on disk is
visible. -/
def COSUploader.upload_source_code (u : COSUploader) (st : DiskState)
    (source_dir deployment_id : String)
    (exclude_patterns : Option (List String))
    (now nowArchive : DateTime) (net : Option String) :
    DiskState × Except PyExn (String × String) :=
  let object_name :=
    "deployments/" ++ deployment_id ++ "/" ++ utcTimestamp now ++ "_source.zip"
  match u.create_source_archive st source_dir none exclude_patterns nowArchive with
  | (st1, .error e) => (st1, .error e)
  | (st1, .ok zip_path) =>
      match u.upload_file st1 zip_path (some object_name) net with
      | .error e => (st1, .error e)
      | .ok cos_uri => (st1, .ok (cos_uri, zip_path))

/-- `Path(p).unlink()`. -/
def removeFile (st : DiskState) (p : String) : DiskState :=
  { st with files := st.files.filter (fun e => e.fst ≠ p) }

/-- The artifact-cleanup step of `deploy_ibm.main` (deploy_ibm.py lines
78-82 and 85-100): only on the success path, and only when
`config.cleanup_artifacts` is set, is the local zip deleted; every
exception path returns without touching the archive. -/
def main_artifact_cleanup (st : DiskState) (cleanup_artifacts : Bool)
    (result : Except PyExn (String × String)) : DiskState :=
  match result with
  | .ok (_, zip_path) =>
      if cleanup_artifacts then removeFile st zip_path else st
  | .error _ => st

/-! ## Concrete sample data for witnesses and scenarios -/

/-- The source tree of spec Scenario A:
`{a.txt, .git/config, node_modules/x.js}` (with the two directories the
recursive walk also visits). -/
def sampleTree : List FSEntry :=
  [⟨["a.txt"], true, "alpha"⟩, ⟨[".git"], false, ""⟩,
   ⟨[".git", "config"], true, "beta"⟩, ⟨["node_modules"], false, ""⟩,
   ⟨["node_modules", "x.js"], true, "gamma"⟩]

/-- A disk holding the sample tree at `/src` and no other files. -/
def sampleDisk : DiskState := ⟨[("/src", sampleTree)], []⟩

/-- A concrete uploader handle. -/
def sampleUploader : COSUploader :=
  ⟨"bkt", "s3.us-south.cloud-object-storage.appdomain.cloud", "key", "sid"⟩

/-- The instant `2024-01-02T03:04:05Z` of spec Scenario D. -/
def sampleTime : DateTime := ⟨2024, 1, 2, 3, 4, 5⟩

/-! ## Specification-side predicates

These restate, in the words of the specification, what exclusion is
supposed to mean; the theorems below compare them with the embedded
`should_exclude`. -/

/-- The exclusion test as the spec words it, for one rule: a rule without
glob metacharacters excludes exactly when the rule string equals one of
the path segments; a rule with a glob metacharacter excludes exactly when
it glob-matches the base name or the full posix relative path. -/
def specRuleExcludes (rule : String) (parts : RelPath) : Prop :=
  if hasGlobToken rule then
    fnmatchB (fileName parts) rule = true ∨ fnmatchB (relativeStr parts) rule = true
  else
    rule ∈ parts

/-- The spec notion of a file being excluded: some rule matches. -/
def specExcluded (rules : List String) (parts : RelPath) : Prop :=
  ∃ rule ∈ rules, specRuleExcludes rule parts

/-! ## Helper lemmas -/

theorem should_exclude_eq_any (rules : List String) (parts : RelPath) :
    should_exclude rules parts = rules.any (matchesPattern parts) := by
  induction rules with
  | nil => rfl
  | cons p ps ih =>
      by_cases h : matchesPattern parts p = true <;>
        simp [should_exclude, h, ih]

theorem matchesPattern_iff (rule : String) (parts : RelPath) :
    matchesPattern parts rule = true ↔ specRuleExcludes rule parts := by
  unfold matchesPattern specRuleExcludes
  split
  · simp
  · simp

/-- C2: for every exclusion rule and candidate file, a rule free of the
glob metacharacters excludes exactly when it equals some path segment of
the relative path (never a substring), a glob rule excludes exactly when
it `fnmatch`-matches the base name or the posix relative path, a file is
excluded exactly when some rule matches, and permuting the rule list
never changes the outcome. -/
theorem should_exclude_correct :
    ∀ (rules : List String) (parts : RelPath),
      (should_exclude rules parts = true ↔ specExcluded rules parts) ∧
      ∀ rules2 : List String, rules2.Perm rules →
        should_exclude rules2 parts = should_exclude rules parts := by
  intro rules parts
  constructor
  · rw [should_exclude_eq_any, List.any_eq_true]
    simp only [matchesPattern_iff, specExcluded]
  · intro rules2 hp
    rw [should_exclude_eq_any, should_exclude_eq_any]
    refine Bool.eq_iff_iff.mpr ?_
    rw [List.any_eq_true, List.any_eq_true]
    exact ⟨fun ⟨x, hx, hfx⟩ => ⟨x, hp.mem_iff.mp hx, hfx⟩,
      fun ⟨x, hx, hfx⟩ => ⟨x, hp.mem_iff.mpr hx, hfx⟩⟩

/-- Witness for `should_exclude_correct` at a concrete rule set, path and
permutation. -/
theorem should_exclude_correct_witness :
    (should_exclude [".git", "*.pyc"] [".git", "config"] = true ↔
      specExcluded [".git", "*.pyc"] [".git", "config"]) ∧
    should_exclude ["*.pyc", ".git"] [".git", "config"]
      = should_exclude [".git", "*.pyc"] [".git", "config"] :=
  ⟨(should_exclude_correct [".git", "*.pyc"] [".git", "config"]).1,
    (should_exclude_correct [".git", "*.pyc"] [".git", "config"]).2
      ["*.pyc", ".git"] (List.Perm.swap ".git" "*.pyc" [])⟩

/-- `t ≠ ""` gives `t.isEmpty = false`. -/
theorem isEmpty_false_of_ne (t : String) (ht : t ≠ "") : t.isEmpty = false := by
  cases hh : t.isEmpty
  · rfl
  · exact absurd ((String.isEmpty_iff t).mp hh) ht

/-- C1 (behavior at the failing input): the storage-uploader factory
raises `AttributeError` on the OIDC-exchanged bearer-token credential,
because `COSUploader.__init__` reads `authenticator.token_manager.apikey`
and `BearerTokenAuthenticator` carries no `token_manager`; on the
API-key-derived credential construction always succeeds. -/
theorem create_cos_uploader_bearer_fails :
    (create_cos_uploader (.bearer "exchanged-token") "us-south" "bkt" none
        ⟨none, none, none⟩
      = .error (.attributeError
          "BearerTokenAuthenticator object has no attribute token_manager")) ∧
    (∀ (k region bucket : String) (ep : Option String) (env : Env),
      ∃ u2, create_cos_uploader (.iam k) region bucket ep env = .ok u2) := by
  constructor
  · decide
  · intro k region bucket ep env
    exact ⟨_, rfl⟩

/-- C4: credential resolution is deterministic with a fixed priority:
when the (explicit or environment) OIDC token and the trusted-profile id
are both present (truthy), the resolver performs the token exchange -
once - and the API key never enters the result; when the OIDC pair is
not both present but an (explicit or environment) API key is, the result
is the API-key credential with zero exchange calls; when neither method
is available the resolver fails with the no-credential `ValueError`. -/
theorem get_authenticator_priority :
    ∀ (trusted_profile_id api_key oidc_token : Option String) (env : Env)
      (resp : ExchangeResponse),
      (∀ t p, effectiveOidcToken oidc_token env = some t → t ≠ "" →
        trusted_profile_id = some p → p ≠ "" →
        get_authenticator trusted_profile_id api_key oidc_token env resp
          = (create_iam_authenticator_oidc t p resp, 1)) ∧
      ((strTruthy (effectiveOidcToken oidc_token env) = false ∨
          strTruthy trusted_profile_id = false) →
        ∀ k, effectiveApiKey api_key env = some k → k ≠ "" →
        get_authenticator trusted_profile_id api_key oidc_token env resp
          = (.ok (.iam k), 0)) ∧
      ((strTruthy (effectiveOidcToken oidc_token env) = false ∨
          strTruthy trusted_profile_id = false) →
        strTruthy (effectiveApiKey api_key env) = false →
        get_authenticator trusted_profile_id api_key oidc_token env resp
          = (.error (.valueError
              "No valid authentication method available. Either set VERCEL_OIDC_TOKEN with a Trusted Profile ID, or set IBM_CLOUD_API_KEY environment variable."),
             0)) := by
  intro tpid api_key oidc env resp
  refine ⟨?_, ?_, ?_⟩
  · intro t p hoidc ht hprof hp
    simp [get_authenticator, hoidc, hprof, strTruthy,
      isEmpty_false_of_ne t ht, isEmpty_false_of_ne p hp]
  · intro hdisj k hkey hk
    have hcond : (strTruthy (effectiveOidcToken oidc env) && strTruthy tpid) = false := by
      rcases hdisj with h | h <;> simp [h]
    simp only [get_authenticator, hcond]
    simp [hkey, strTruthy, create_iam_authenticator, isEmpty_false_of_ne k hk]
  · intro hdisj hkeyf
    have hcond : (strTruthy (effectiveOidcToken oidc env) && strTruthy tpid) = false := by
      rcases hdisj with h | h <;> simp [h]
    simp [get_authenticator, hcond, hkeyf]

/-- Witness for `get_authenticator_priority`: with an OIDC token, a
profile id and an API key all present, resolution is the exchange
outcome and the key is ignored. -/
theorem get_authenticator_priority_witness :
    get_authenticator (some "prof") (some "key") (some "tok") ⟨none, none, none⟩
        (.httpResponse 200 (some "atk") none)
      = (create_iam_authenticator_oidc "tok" "prof"
          (.httpResponse 200 (some "atk") none), 1) :=
  (get_authenticator_priority (some "prof") (some "key") (some "tok")
      ⟨none, none, none⟩ (.httpResponse 200 (some "atk") none)).1
    "tok" "prof" rfl (by decide) rfl (by decide)

/-- C5 counterexample: a non-2xx exchange response need not fail -
`raise_for_status` only raises for status 400-599, so an HTTP 300
response whose JSON carries an `access_token` makes resolution succeed
with a bearer credential instead of failing with `AuthExchangeError`. -/
theorem oidc_non2xx_counterexample :
    get_authenticator (some "prof") (some "key") (some "tok") ⟨none, none, none⟩
        (.httpResponse 300 (some "atk") none)
      = (.ok (.bearer "atk"), 1) := by decide

/-- C5 (amended): when the OIDC pair is present, a transport error, an
HTTP 4xx/5xx response, or a response (status outside 400-599) whose JSON
lacks `access_token` each make resolution fail with the
`RuntimeError` that models `AuthExchangeError`; exactly one exchange
attempt is made, and no response whatsoever can make the resolver fall
back to an API-key credential. -/
theorem oidc_exchange_failure_handling :
    ∀ (t p : String) (api_key : Option String) (env : Env),
      t ≠ "" → p ≠ "" →
      (∀ m, (get_authenticator (some p) api_key (some t) env (.transportError m)).1
        = .error (.runtimeError ("Failed to exchange OIDC token with IBM IAM: " ++ m))) ∧
      (∀ status tok exp, 400 ≤ status → status < 600 →
        (get_authenticator (some p) api_key (some t) env
            (.httpResponse status tok exp)).1
          = .error (.runtimeError
              ("Failed to exchange OIDC token with IBM IAM: HTTP status " ++
                toString status))) ∧
      (∀ status exp, ¬ (400 ≤ status ∧ status < 600) →
        (get_authenticator (some p) api_key (some t) env
            (.httpResponse status none exp)).1
          = .error (.runtimeError "Failed to obtain access token from IBM IAM")) ∧
      (∀ resp, (get_authenticator (some p) api_key (some t) env resp).2 = 1) ∧
      (∀ resp k, (get_authenticator (some p) api_key (some t) env resp).1
        ≠ .ok (.iam k)) := by
  intro t p api_key env ht hp
  have ht2 := isEmpty_false_of_ne t ht
  have hp2 := isEmpty_false_of_ne p hp
  have hbase : ∀ resp, get_authenticator (some p) api_key (some t) env resp
      = (create_iam_authenticator_oidc t p resp, 1) := by
    intro resp
    simp [get_authenticator, effectiveOidcToken, strTruthy, ht2, hp2]
  refine ⟨?_, ?_, ?_, ?_, ?_⟩
  · intro m
    rw [hbase]
    simp [create_iam_authenticator_oidc, ht2, hp2]
  · intro status tok exp h4 h6
    rw [hbase]
    have hrs : raisesForStatus status = true := by
      simp only [raisesForStatus, Bool.and_eq_true, decide_eq_true_eq]
      omega
    simp [create_iam_authenticator_oidc, ht2, hp2, hrs]
  · intro status exp hlt
    rw [hbase]
    have hrs : raisesForStatus status = false := by
      rw [Bool.eq_false_iff]
      simp only [ne_eq, raisesForStatus, Bool.and_eq_true, decide_eq_true_eq]
      omega
    simp [create_iam_authenticator_oidc, ht2, hp2, hrs]
  · intro resp
    rw [hbase]
  · intro resp k
    rw [hbase]
    cases resp with
    | transportError m => simp [create_iam_authenticator_oidc, ht2, hp2]
    | httpResponse s tok e =>
        simp only [create_iam_authenticator_oidc, ht2, hp2]
        by_cases hrs : raisesForStatus s = true
        · simp [hrs]
        · rw [Bool.not_eq_true] at hrs
          cases tok with
          | none => simp [hrs]
          | some tk =>
              by_cases htk : tk.isEmpty = true <;> simp [hrs, htk]

/-- Witness for `oidc_exchange_failure_handling`: a concrete transport
failure during the exchange surfaces as the `RuntimeError` modelling
`AuthExchangeError`. -/
theorem oidc_exchange_failure_handling_witness :
    (get_authenticator (some "prof") (some "key") (some "tok") ⟨none, none, none⟩
        (.transportError "boom")).1
      = .error (.runtimeError
          ("Failed to exchange OIDC token with IBM IAM: " ++ "boom")) :=
  (oidc_exchange_failure_handling "tok" "prof" (some "key") ⟨none, none, none⟩
      (by decide) (by decide)).1 "boom"

/-- C8 counterexample: two distinct failure cases of the core - the
archive root missing (the spec kind `SourceNotFoundError`) and the
upload target missing (the spec kind `FileNotFoundError`) - surface as
the same Python exception class, and likewise the OIDC-exchange failure
and the upload failure are both `RuntimeError`; so the error kinds are
not pairwise distinguishable without inspecting messages. -/
theorem error_kind_collision :
    ((sampleUploader.create_source_archive ⟨[], []⟩ "/missing" none none sampleTime).2
      = .error (.fileNotFoundError "Source directory not found: /missing")) ∧
    (sampleUploader.upload_file ⟨[], []⟩ "/absent.zip" none none
      = .error (.fileNotFoundError "File not found: /absent.zip")) ∧
    (pyExnKind (.fileNotFoundError "Source directory not found: /missing")
      = pyExnKind (.fileNotFoundError "File not found: /absent.zip")) ∧
    (create_iam_authenticator_oidc "tok" "prof" (.transportError "boom")
      = .error (.runtimeError "Failed to exchange OIDC token with IBM IAM: boom")) ∧
    (sampleUploader.upload_file ⟨[], [("/a.zip", [])]⟩ "/a.zip" none (some "conn reset")
      = .error (.runtimeError "Failed to upload file to COS: conn reset")) ∧
    (pyExnKind (.runtimeError "Failed to exchange OIDC token with IBM IAM: boom")
      = pyExnKind (.runtimeError "Failed to upload file to COS: conn reset")) := by
  decide

/-- C8 (amended): the failure cases map onto three Python exception
classes - `ValueError` for no usable credential, `RuntimeError` for both
the OIDC-exchange failure and the upload failure, `FileNotFoundError`
for both the missing archive root and the missing upload target - and
those three classes are pairwise distinguishable; the two cases inside
each of the latter two classes are not. -/
theorem error_kind_grouping :
    ((get_authenticator none none none ⟨none, none, none⟩ (.transportError "x")).1
      = .error (.valueError
          "No valid authentication method available. Either set VERCEL_OIDC_TOKEN with a Trusted Profile ID, or set IBM_CLOUD_API_KEY environment variable.")) ∧
    (pyExnKind (.valueError "No valid authentication method available. Either set VERCEL_OIDC_TOKEN with a Trusted Profile ID, or set IBM_CLOUD_API_KEY environment variable.")
      = .valueError) ∧
    (pyExnKind (.runtimeError "Failed to exchange OIDC token with IBM IAM: boom")
      = .runtimeError) ∧
    (pyExnKind (.fileNotFoundError "Source directory not found: /missing")
      = .fileNotFoundError) ∧
    (PyExnKind.valueError ≠ PyExnKind.runtimeError) ∧
    (PyExnKind.valueError ≠ PyExnKind.fileNotFoundError) ∧
    (PyExnKind.runtimeError ≠ PyExnKind.fileNotFoundError) := by
  decide

/-- C3: the archive built by `create_source_archive` is a projection of
the source tree: the builder succeeds, writes the archive under the
(default or supplied) output path, a (relative path, content) pair is in
the archive exactly when it is a regular file of the tree excluded by no
rule, and a permutation of the traversal order permutes the archive
entries (so the archived set is traversal-order independent); for
Scenario A's tree under the default exclusions the archive holds only
`a.txt`. -/
theorem create_source_archive_is_projection :
    (∀ (u : COSUploader) (st : DiskState) (source_dir : String)
        (output_path : Option String) (patterns : List String)
        (tree : List FSEntry) (now : DateTime),
      st.trees.lookup source_dir = some tree →
      (u.create_source_archive st source_dir output_path (some patterns) now
        = ({ st with files :=
              (output_path.getD ("/tmp/source_" ++ utcTimestamp now ++ ".zip"),
               archiveEntries patterns tree) :: st.files },
           .ok (output_path.getD ("/tmp/source_" ++ utcTimestamp now ++ ".zip")))) ∧
      (∀ (p : RelPath) (c : String),
        (p, c) ∈ archiveEntries patterns tree ↔
          ∃ e : FSEntry, e ∈ tree ∧ e.isFile = true ∧
            should_exclude patterns e.path = false ∧ e.path = p ∧ e.content = c) ∧
      (∀ tree2 : List FSEntry, tree2.Perm tree →
        (archiveEntries patterns tree2).Perm (archiveEntries patterns tree))) ∧
    archiveEntries DEFAULT_EXCLUDE_PATTERNS sampleTree = [(["a.txt"], "alpha")] := by
  constructor
  · intro u st sd op patterns tree now h
    refine ⟨?_, ?_, ?_⟩
    · simp [COSUploader.create_source_archive, h]
    · intro p c
      simp only [archiveEntries, List.mem_map, List.mem_filter,
        Bool.and_eq_true, Bool.not_eq_true', Prod.mk.injEq]
      constructor
      · rintro ⟨e, ⟨he, hf, hx⟩, hp, hc⟩
        exact ⟨e, he, hf, hx, hp, hc⟩
      · rintro ⟨e, he, hf, hx, hp, hc⟩
        exact ⟨e, ⟨he, hf, hx⟩, hp, hc⟩
    · intro tree2 hp
      simp only [archiveEntries]
      exact (hp.filter _).map _
  · decide

/-- Witness for `create_source_archive_is_projection` on Scenario A's
tree placed at `/src`. -/
theorem create_source_archive_is_projection_witness :
    sampleUploader.create_source_archive sampleDisk "/src" none
        (some DEFAULT_EXCLUDE_PATTERNS) sampleTime
      = ({ sampleDisk with files :=
            ((none : Option String).getD
               ("/tmp/source_" ++ utcTimestamp sampleTime ++ ".zip"),
             archiveEntries DEFAULT_EXCLUDE_PATTERNS sampleTree) :: sampleDisk.files },
         .ok ((none : Option String).getD
               ("/tmp/source_" ++ utcTimestamp sampleTime ++ ".zip"))) ∧
    (archiveEntries DEFAULT_EXCLUDE_PATTERNS sampleTree.reverse).Perm
      (archiveEntries DEFAULT_EXCLUDE_PATTERNS sampleTree) :=
  ⟨(create_source_archive_is_projection.1 sampleUploader sampleDisk "/src" none
      DEFAULT_EXCLUDE_PATTERNS sampleTree sampleTime rfl).1,
   (create_source_archive_is_projection.1 sampleUploader sampleDisk "/src" none
      DEFAULT_EXCLUDE_PATTERNS sampleTree sampleTime rfl).2.2 sampleTree.reverse
      (List.reverse_perm sampleTree)⟩

/-- C7: calling the archive builder on a directory that does not exist
fails with the `FileNotFoundError` that models `SourceNotFoundError` and
returns the disk unchanged: the existence check precedes creation of
the output file or its parent directories, so no partial archive is
left behind. -/
theorem create_source_archive_missing_source :
    ∀ (u : COSUploader) (st : DiskState) (source_dir : String)
      (output_path : Option String) (patterns : Option (List String))
      (now : DateTime),
      st.trees.lookup source_dir = none →
      u.create_source_archive st source_dir output_path patterns now
        = (st, .error (.fileNotFoundError
            ("Source directory not found: " ++ source_dir))) := by
  intro u st sd op patterns now h
  simp [COSUploader.create_source_archive, h]

/-- Witness for `create_source_archive_missing_source` on an empty disk. -/
theorem create_source_archive_missing_source_witness :
    sampleUploader.create_source_archive ⟨[], []⟩ "/nope" none none sampleTime
      = (⟨[], []⟩, .error (.fileNotFoundError
          ("Source directory not found: " ++ "/nope"))) :=
  create_source_archive_missing_source sampleUploader ⟨[], []⟩ "/nope" none none
    sampleTime rfl

/-- C9: when the upload fails after the archive has been created, the
pipeline aborts with the `RuntimeError` modelling `UploadError` while
the archive file is still present on disk in the resulting state; the
orchestrator caller deletes nothing on an error outcome, and on a
success outcome deletes the archive exactly when the cleanup flag is
configured. -/
theorem archive_survives_failed_upload :
    ∀ (u : COSUploader) (st : DiskState) (source_dir deployment_id : String)
      (tree : List FSEntry) (patterns : Option (List String))
      (now nowArchive : DateTime) (m : String) (cleanup : Bool),
      st.trees.lookup source_dir = some tree →
      (u.upload_source_code st source_dir deployment_id patterns now nowArchive
          (some m)
        = ({ st with files :=
              ("/tmp/source_" ++ utcTimestamp nowArchive ++ ".zip",
               archiveEntries (patterns.getD DEFAULT_EXCLUDE_PATTERNS) tree)
                :: st.files },
           .error (.runtimeError ("Failed to upload file to COS: " ++ m)))) ∧
      (({ st with files :=
            ("/tmp/source_" ++ utcTimestamp nowArchive ++ ".zip",
             archiveEntries (patterns.getD DEFAULT_EXCLUDE_PATTERNS) tree)
              :: st.files } : DiskState).files.lookup
          ("/tmp/source_" ++ utcTimestamp nowArchive ++ ".zip")
        = some (archiveEntries (patterns.getD DEFAULT_EXCLUDE_PATTERNS) tree)) ∧
      (∀ (e : PyExn) (st2 : DiskState),
        main_artifact_cleanup st2 cleanup (.error e) = st2) ∧
      (∀ (st2 : DiskState) (uri zp : String),
        main_artifact_cleanup st2 cleanup (.ok (uri, zp))
          = if cleanup then removeFile st2 zp else st2) := by
  intro u st sd dep tree patterns now nowA m cleanup h
  refine ⟨?_, ?_, ?_, ?_⟩
  · simp [COSUploader.upload_source_code, COSUploader.create_source_archive, h,
      COSUploader.upload_file, List.lookup]
  · simp [List.lookup]
  · intro e st2
    rfl
  · intro st2 uri zp
    rfl

/-- Witness for `archive_survives_failed_upload`: a concrete failed
upload leaves the freshly written archive in the disk state. -/
theorem archive_survives_failed_upload_witness :
    sampleUploader.upload_source_code sampleDisk "/src" "dep123" none sampleTime
        sampleTime (some "conn reset")
      = ({ sampleDisk with files :=
            ("/tmp/source_" ++ utcTimestamp sampleTime ++ ".zip",
             archiveEntries ((none : Option (List String)).getD DEFAULT_EXCLUDE_PATTERNS)
               sampleTree) :: sampleDisk.files },
         .error (.runtimeError ("Failed to upload file to COS: " ++ "conn reset"))) :=
  (archive_survives_failed_upload sampleUploader sampleDisk "/src" "dep123"
      sampleTree none sampleTime sampleTime "conn reset" true rfl).1

/-- C10: `upload_file` without an explicit object key uses the base name
of the local path - not the full path - as the object key, and returns
the locator `cos://bucket/baseName`. -/
theorem upload_file_default_key :
    (∀ (u : COSUploader) (st : DiskState) (file_path : String) (a : Archive),
      st.files.lookup file_path = some a →
      u.upload_file st file_path none none
        = .ok ("cos://" ++ u.bucket_name ++ "/" ++ baseName file_path)) ∧
    (baseName "/tmp/builds/app.zip" = "app.zip") ∧
    ("app.zip" ≠ "/tmp/builds/app.zip") := by
  refine ⟨?_, by decide, by decide⟩
  intro u st fp a h
  simp [COSUploader.upload_file, h]

/-- Witness for `upload_file_default_key` on a concrete file. -/
theorem upload_file_default_key_witness :
    sampleUploader.upload_file ⟨[], [("/tmp/builds/app.zip", [])]⟩
        "/tmp/builds/app.zip" none none
      = .ok ("cos://" ++ sampleUploader.bucket_name ++ "/" ++
          baseName "/tmp/builds/app.zip") :=
  upload_file_default_key.1 sampleUploader ⟨[], [("/tmp/builds/app.zip", [])]⟩
    "/tmp/builds/app.zip" [] rfl

/-! ## Object-key injectivity -/

theorem digitChar_eq_iff (a b : Nat) : digitChar a = digitChar b ↔ a % 10 = b % 10 := by
  have key : ∀ x, x < 10 → ∀ y, y < 10 →
      (Char.ofNat (48 + x) = Char.ofNat (48 + y) ↔ x = y) := by decide
  constructor
  · intro h
    exact (key (a % 10) (Nat.mod_lt a (by decide)) (b % 10)
      (Nat.mod_lt b (by decide))).mp h
  · intro h
    unfold digitChar
    rw [h]

theorem utcTimestamp_data (d : DateTime) :
    (utcTimestamp d).data =
      [digitChar (d.year / 1000), digitChar (d.year / 100),
       digitChar (d.year / 10), digitChar d.year,
       digitChar (d.month / 10), digitChar d.month,
       digitChar (d.day / 10), digitChar d.day, '_',
       digitChar (d.hour / 10), digitChar d.hour,
       digitChar (d.minute / 10), digitChar d.minute,
       digitChar (d.second / 10), digitChar d.second] := rfl

theorem utcTimestamp_data_length (d : DateTime) :
    (utcTimestamp d).data.length = 15 := by
  rw [utcTimestamp_data]
  rfl

theorem utcTimestamp_length (d : DateTime) : (utcTimestamp d).length = 15 :=
  utcTimestamp_data_length d

theorem utcTimestamp_inj (d1 d2 : DateTime) (h1 : d1.Valid) (h2 : d2.Valid)
    (h : utcTimestamp d1 = utcTimestamp d2) : d1 = d2 := by
  cases d1 with
  | mk y1 mo1 dd1 hh1 mi1 ss1 =>
  cases d2 with
  | mk y2 mo2 dd2 hh2 mi2 ss2 =>
  simp only [DateTime.Valid] at h1 h2
  obtain ⟨hy1l, hy1u, hmo1l, hmo1u, hd1l, hd1u, hh1u, hmi1u, hss1u⟩ := h1
  obtain ⟨hy2l, hy2u, hmo2l, hmo2u, hd2l, hd2u, hh2u, hmi2u, hss2u⟩ := h2
  have hd := congrArg String.data h
  rw [utcTimestamp_data, utcTimestamp_data] at hd
  simp only [List.cons.injEq] at hd
  obtain ⟨e1, e2, e3, e4, e5, e6, e7, e8, -, e9, e10, e11, e12, e13, e14, -⟩ := hd
  rw [digitChar_eq_iff] at e1 e2 e3 e4 e5 e6 e7 e8 e9 e10 e11 e12 e13 e14
  simp only [DateTime.mk.injEq]
  refine ⟨?_, ?_, ?_, ?_, ?_, ?_⟩ <;> omega

theorem deployKey_inj (dep1 dep2 : String) (t1 t2 : DateTime)
    (h1 : t1.Valid) (h2 : t2.Valid)
    (h : "deployments/" ++ dep1 ++ "/" ++ utcTimestamp t1 ++ "_source.zip"
        = "deployments/" ++ dep2 ++ "/" ++ utcTimestamp t2 ++ "_source.zip") :
    dep1 = dep2 ∧ t1 = t2 := by
  have hd := congrArg String.data h
  simp only [String.data_append, List.append_assoc] at hd
  have hd2 := List.append_cancel_left hd
  have hlen : (String.data "/" ++ ((utcTimestamp t1).data ++ String.data "_source.zip")).length
      = (String.data "/" ++ ((utcTimestamp t2).data ++ String.data "_source.zip")).length := by
    simp [List.length_append, utcTimestamp_data_length, utcTimestamp_length]
  obtain ⟨hdep, hrest⟩ := List.append_inj' hd2 hlen
  refine ⟨String.ext hdep, ?_⟩
  have hts := List.append_cancel_right (List.append_cancel_left hrest)
  exact utcTimestamp_inj t1 t2 h1 h2 (String.ext hts)

/-- C6: `upload_source_code` computes the object key
`deployments/{deploymentId}/{YYYYMMDD_HHMMSS}_source.zip` from the
current UTC second and returns the locator `cos://{bucket}/{objectKey}`;
two keys for the same deployment id at different seconds differ, two
keys for different deployment ids differ regardless of timing, and for
deployment `dep123` at `2024-01-02T03:04:05Z` the key and locator are
the concrete Scenario D strings. -/
theorem upload_source_code_object_key :
    (∀ (u : COSUploader) (st : DiskState) (source_dir deployment_id : String)
        (tree : List FSEntry) (patterns : Option (List String))
        (now nowArchive : DateTime),
      st.trees.lookup source_dir = some tree →
      (u.upload_source_code st source_dir deployment_id patterns now nowArchive
          none).2
        = .ok ("cos://" ++ u.bucket_name ++ "/" ++
                 ("deployments/" ++ deployment_id ++ "/" ++ utcTimestamp now ++
                   "_source.zip"),
               "/tmp/source_" ++ utcTimestamp nowArchive ++ ".zip")) ∧
    (∀ (dep : String) (t1 t2 : DateTime), t1.Valid → t2.Valid → t1 ≠ t2 →
      "deployments/" ++ dep ++ "/" ++ utcTimestamp t1 ++ "_source.zip"
        ≠ "deployments/" ++ dep ++ "/" ++ utcTimestamp t2 ++ "_source.zip") ∧
    (∀ (dep1 dep2 : String) (t1 t2 : DateTime), t1.Valid → t2.Valid →
      dep1 ≠ dep2 →
      "deployments/" ++ dep1 ++ "/" ++ utcTimestamp t1 ++ "_source.zip"
        ≠ "deployments/" ++ dep2 ++ "/" ++ utcTimestamp t2 ++ "_source.zip") ∧
    ("deployments/" ++ "dep123" ++ "/" ++ utcTimestamp sampleTime ++ "_source.zip"
      = "deployments/dep123/20240102_030405_source.zip") ∧
    ("cos://" ++ "bkt" ++ "/" ++
        ("deployments/" ++ "dep123" ++ "/" ++ utcTimestamp sampleTime ++
          "_source.zip")
      = "cos://bkt/deployments/dep123/20240102_030405_source.zip") := by
  refine ⟨?_, ?_, ?_, by decide, by decide⟩
  · intro u st sd dep tree patterns now nowA h
    simp [COSUploader.upload_source_code, COSUploader.create_source_archive, h,
      COSUploader.upload_file, List.lookup]
  · intro dep t1 t2 h1 h2 hne heq
    exact hne (deployKey_inj dep dep t1 t2 h1 h2 heq).2
  · intro dep1 dep2 t1 t2 h1 h2 hne heq
    exact hne (deployKey_inj dep1 dep2 t1 t2 h1 h2 heq).1

/-- Witness for `upload_source_code_object_key`: a concrete successful
upload returns the Scenario D locator shape, keys at seconds 5 and 6
differ, and keys for deployment ids `a` and `b` differ. -/
theorem upload_source_code_object_key_witness :
    ((sampleUploader.upload_source_code sampleDisk "/src" "dep123" none
        sampleTime sampleTime none).2
      = .ok ("cos://" ++ sampleUploader.bucket_name ++ "/" ++
               ("deployments/" ++ "dep123" ++ "/" ++ utcTimestamp sampleTime ++
                 "_source.zip"),
             "/tmp/source_" ++ utcTimestamp sampleTime ++ ".zip")) ∧
    ("deployments/" ++ "a" ++ "/" ++ utcTimestamp sampleTime ++ "_source.zip"
      ≠ "deployments/" ++ "a" ++ "/" ++ utcTimestamp ⟨2024, 1, 2, 3, 4, 6⟩ ++
          "_source.zip") ∧
    ("deployments/" ++ "a" ++ "/" ++ utcTimestamp sampleTime ++ "_source.zip"
      ≠ "deployments/" ++ "b" ++ "/" ++ utcTimestamp sampleTime ++ "_source.zip") :=
  ⟨upload_source_code_object_key.1 sampleUploader sampleDisk "/src" "dep123"
      sampleTree none sampleTime sampleTime rfl,
   upload_source_code_object_key.2.1 "a" sampleTime ⟨2024, 1, 2, 3, 4, 6⟩
      (by decide) (by decide) (by decide),
   upload_source_code_object_key.2.2.1 "a" "b" sampleTime sampleTime
      (by decide) (by decide) (by decide)⟩

end IbmCloudVercel
